import Mathlib

/-!
Verification of the keystroke-driven combat engine (Keyboard-Warrior).

Shallow embedding of the core subsystems:
  * `src/game/pacing.rs`         — `PacingController` (tension, phases, beat queue)
  * `src/game/dialogue_engine.rs`— `CombatMomentum` health buckets
  * `src/game/enemy_visuals.rs`  — `EnemyVisualState` wound/posture tracking
  * `src/game/typing_impact.rs`  — `TypingImpact` keystroke damage model

Modelling conventions:
  * `f32` values are modelled as exact rationals (`ℚ`); all float constants in
    the source (1.5, 0.3, …) are taken at their decimal value.
  * `i32` fields are modelled as `ℤ`, `u32`/`usize` as `Nat`; additions that
    would abort on overflow in a checked build are modelled as exact `Nat`
    addition.
  * Wall-clock reads (`Instant`) are externalized: the keystroke interval and
    the elapsed word time become explicit arguments, as the source only ever
    consumes those derived quantities.
  * The thread-local RNG is externalized into oracle arguments (an index for a
    uniform choice from a slice, raw draws for `gen_range`), so every concrete
    run of the source corresponds to some oracle value and conversely.
-/

namespace KW

/-! ## Pacing controller (`src/game/pacing.rs`) -/

/-- Pacing phase enum (`PacingPhase`). -/
inductive PacingPhase where
  | Exploration
  | RisingTension
  | Confrontation
  | Resolution
  | Interlude
deriving DecidableEq, Repr

/-- Narrative beat (`PacingBeat`), with its payload fields. -/
inductive PacingBeat where
  | Atmosphere (text : String) (duration_ms : Nat)
  | Environmental (text : String) (examine_prompt : Option String)
  | InternalThought (text : String)
  | OminousHint (text : String)
  | MemoryFlash (text : String) (lore_key : Option String)
  | NPCGlimpse (text : String)
deriving DecidableEq, Repr

/-- Embeds `PacingController` state; the `ThreadRng` field is externalized into the
oracle arguments of the transition functions. -/
structure PacingController where
  tension : ℤ
  combats_since_rest : ℤ
  phase : PacingPhase
  pending_beats : List PacingBeat
deriving DecidableEq, Repr

/-- Embeds `PacingController::new`. -/
def PacingController.new : PacingController :=
  { tension := 0
    combats_since_rest := 0
    phase := .Exploration
    pending_beats := [] }

/-- Embeds `PacingController::on_combat_start`. -/
def PacingController.on_combat_start (st : PacingController) (is_boss : Bool) :
    PacingController :=
  { st with
    phase := .Confrontation
    tension := min (st.tension + (if is_boss then 30 else 15)) 100 }

/-- The tension-bucket match of `PacingController::update_phase`
(`0..=20`, `21..=50`, `51..=80`, catch-all). -/
def phaseOfTension (t : ℤ) : PacingPhase :=
  if 0 ≤ t ∧ t ≤ 20 then .Exploration
  else if 21 ≤ t ∧ t ≤ 50 then .RisingTension
  else if 51 ≤ t ∧ t ≤ 80 then .Confrontation
  else .Confrontation

/-- Embeds `PacingController::update_phase`. -/
def PacingController.update_phase (st : PacingController) : PacingController :=
  { st with phase := phaseOfTension st.tension }

/-- The four candidate breather beats of `PacingController::queue_breather`. -/
def breatherBeats : List PacingBeat :=
  [ .InternalThought
      "You pause. Let your breathing slow. The silence after battle is deafening.",
    .InternalThought "Your hands are shaking. When did they start?",
    .InternalThought "How many more? The question surfaces unbidden.",
    .Environmental "Dust settles. The echoes of combat fade into memory." none ]

/-- The beat picked by `beats.choose(&mut self.rng)` for oracle value
`choice`; `choice % 4` ranges over exactly the four candidates. -/
def breatherChoice (choice : Nat) : PacingBeat :=
  breatherBeats.getD (choice % breatherBeats.length) (.InternalThought "")

/-- Embeds `PacingController::queue_breather` (the uniform choice is the oracle
argument `choice`). -/
def PacingController.queue_breather (st : PacingController) (choice : Nat) :
    PacingController :=
  { st with
    pending_beats := st.pending_beats ++ [breatherChoice choice]
    combats_since_rest := 0
    phase := .Resolution }

/-- Embeds `PacingController::on_combat_end`. -/
def PacingController.on_combat_end (st : PacingController)
    (victory was_boss : Bool) (choice : Nat) : PacingController :=
  let st1 := { st with combats_since_rest := st.combats_since_rest + 1 }
  let st2 :=
    if victory then
      let stv :=
        { st1 with tension := max (st1.tension - (if was_boss then 20 else 10)) 0 }
      if stv.combats_since_rest ≥ 3 then stv.queue_breather choice else stv
    else
      { st1 with tension := st1.tension + 10 }
  st2.update_phase

/-- Embeds `PacingController::on_rest`. -/
def PacingController.on_rest (st : PacingController) : PacingController :=
  { st with
    combats_since_rest := 0
    tension := max (st.tension - 30) 0
    phase := .Resolution
    pending_beats := st.pending_beats ++
      [.InternalThought "You rest. The silence is almost peaceful. Almost."] }

/-- Embeds `PacingController::on_shop_enter`. -/
def PacingController.on_shop_enter (st : PacingController) : PacingController :=
  { st with phase := .Interlude, tension := max (st.tension - 10) 0 }

/-- Embeds `PacingController::pop_beat` (`Vec::pop`: removes and returns the last
element); returns the popped value together with the new state. -/
def PacingController.pop_beat (st : PacingController) :
    Option PacingBeat × PacingController :=
  (st.pending_beats.getLast?, { st with pending_beats := st.pending_beats.dropLast })

/-- Embeds `PacingController::queue_beat` (`Vec::push`). -/
def PacingController.queue_beat (st : PacingController) (beat : PacingBeat) :
    PacingController :=
  { st with pending_beats := st.pending_beats ++ [beat] }

/-- Embeds `PacingController::reset`. -/
def PacingController.reset (_st : PacingController) : PacingController :=
  { tension := 0
    combats_since_rest := 0
    phase := .Exploration
    pending_beats := [] }

/-- An external call to the pacing controller, with any RNG oracle data the
call consumes. -/
inductive PacingEvent where
  | combatStart (is_boss : Bool)
  | combatEnd (victory was_boss : Bool) (choice : Nat)
  | rest
  | shopEnter
deriving Repr

/-- Dispatch one pacing event. -/
def PacingController.step (st : PacingController) : PacingEvent → PacingController
  | .combatStart b => st.on_combat_start b
  | .combatEnd v wb c => st.on_combat_end v wb c
  | .rest => st.on_rest
  | .shopEnter => st.on_shop_enter

/-- Run a sequence of pacing events. -/
def PacingController.run (st : PacingController) (es : List PacingEvent) :
    PacingController :=
  es.foldl PacingController.step st

/-- Event sequence violating the tension upper bound: four boss combat starts
(clamped at 100) followed by one defeat (unclamped `tension += 10`). -/
def c1FailingEvents : List PacingEvent :=
  [ .combatStart true, .combatStart true, .combatStart true, .combatStart true,
    .combatEnd false false 0 ]

/-- C1. The claim asserts tension ∈ [0,100] after every call of every
interleaving of the four operations from the initial state. The defeat branch
of `on_combat_end` adds 10 to tension without the upper clamp applied
elsewhere, so four boss combat starts (tension saturates at 100) followed by
one defeat leave tension at 110, violating the `0-100` range the source
documents for the field. -/
theorem c1_tension_exceeds_bound :
    (PacingController.new.run c1FailingEvents).tension = 110 ∧
      ¬ (PacingController.new.run c1FailingEvents).tension ≤ 100 := by
  decide

/-- Concrete pacing state with two combats since the last rest, reachable from
`new` by two non-breather victories. -/
def c2PreState : PacingController :=
  { tension := 0, combats_since_rest := 2, phase := .Exploration, pending_beats := [] }

/-- C2 counterexample: a victorious `on_combat_end` from a state with
`combats_since_rest = 2` triggers the breather branch, but the unconditional
`update_phase()` at the end of `on_combat_end` recomputes the phase from the
tension bucket, so the post-call phase is not `Resolution` as the claim
states (here tension 0 gives `Exploration`). -/
theorem c2_phase_counterexample :
    (c2PreState.on_combat_end true false 0).phase ≠ PacingPhase.Resolution := by
  decide

/-- C2 amended: a victorious `on_combat_end` with pre-call
`combats_since_rest ≥ 2` enqueues exactly one breather beat and resets
`combats_since_rest` to 0, but the final phase is the tension-bucket
recomputation (`update_phase` runs unconditionally and overrides the breather
branch's `Resolution` assignment). -/
theorem c2_breather_effects (st : PacingController) (wb : Bool) (choice : Nat)
    (h : 2 ≤ st.combats_since_rest) :
    (st.on_combat_end true wb choice).pending_beats =
        st.pending_beats ++ [breatherChoice choice] ∧
      (st.on_combat_end true wb choice).combats_since_rest = 0 ∧
      (st.on_combat_end true wb choice).phase =
        phaseOfTension (st.on_combat_end true wb choice).tension := by
  have h3 : st.combats_since_rest + 1 ≥ 3 := by omega
  simp [PacingController.on_combat_end, PacingController.queue_breather,
    PacingController.update_phase, if_pos h3]

/-- Witness for `c2_breather_effects` at the concrete state `c2PreState`. -/
theorem c2_breather_effects_witness :
    (2:ℤ) ≤ c2PreState.combats_since_rest ∧
      ((c2PreState.on_combat_end true false 0).pending_beats =
          c2PreState.pending_beats ++ [breatherChoice 0] ∧
        (c2PreState.on_combat_end true false 0).combats_since_rest = 0 ∧
        (c2PreState.on_combat_end true false 0).phase =
          phaseOfTension (c2PreState.on_combat_end true false 0).tension) :=
  ⟨by decide, c2_breather_effects c2PreState false 0 (by decide)⟩

/-- C8: `pop_beat()` on an empty pending queue returns nothing; and from every
queue state whatsoever, enqueuing beat `A` then beat `B` and popping twice
yields `B` first and then `A`, restoring the original queue (strict LIFO).
Only the pop-on-empty conjunct is conditioned on emptiness; the LIFO
conjuncts hold for arbitrary `st`. -/
theorem c8_pop_beat_lifo (st : PacingController) (A B : PacingBeat) :
    (st.pending_beats = [] → (st.pop_beat).1 = none) ∧
      (((st.queue_beat A).queue_beat B).pop_beat).1 = some B ∧
      ((((st.queue_beat A).queue_beat B).pop_beat).2.pop_beat).1 = some A ∧
      ((((st.queue_beat A).queue_beat B).pop_beat).2.pop_beat).2.pending_beats =
        st.pending_beats := by
  refine ⟨fun hempty => ?_, ?_, ?_, ?_⟩ <;>
    simp [PacingController.pop_beat, PacingController.queue_beat, *]

/-- Witness for `c8_pop_beat_lifo` at the initial controller (whose queue is
empty, discharging the pop-on-empty hypothesis) and two concrete beats. -/
theorem c8_pop_beat_lifo_witness :
    (PacingController.new.pop_beat).1 = none ∧
      (((PacingController.new.queue_beat (.OminousHint "a")).queue_beat
          (.NPCGlimpse "b")).pop_beat).1 = some (.NPCGlimpse "b") ∧
      ((((PacingController.new.queue_beat (.OminousHint "a")).queue_beat
          (.NPCGlimpse "b")).pop_beat).2.pop_beat).1 = some (.OminousHint "a") ∧
      ((((PacingController.new.queue_beat (.OminousHint "a")).queue_beat
          (.NPCGlimpse "b")).pop_beat).2.pop_beat).2.pending_beats =
        PacingController.new.pending_beats :=
  ⟨(c8_pop_beat_lifo PacingController.new (.OminousHint "a") (.NPCGlimpse "b")).1 rfl,
    (c8_pop_beat_lifo PacingController.new (.OminousHint "a") (.NPCGlimpse "b")).2.1,
    (c8_pop_beat_lifo PacingController.new (.OminousHint "a") (.NPCGlimpse "b")).2.2.1,
    (c8_pop_beat_lifo PacingController.new (.OminousHint "a") (.NPCGlimpse "b")).2.2.2⟩

/-! ## Combat momentum (`src/game/dialogue_engine.rs`) -/

/-- Enemy momentum enum (`CombatMomentum`). -/
inductive CombatMomentum where
  | Fresh
  | Bloodied
  | Desperate
  | Dying
deriving DecidableEq, Repr

/-- Embeds `CombatMomentum::from_health_percent`: the Rust `match` on an `i32` with
arms `0..=10`, `11..=30`, `31..=70` and a catch-all. -/
def CombatMomentum.from_health_percent (percent : ℤ) : CombatMomentum :=
  if 0 ≤ percent ∧ percent ≤ 10 then .Dying
  else if 11 ≤ percent ∧ percent ≤ 30 then .Desperate
  else if 31 ≤ percent ∧ percent ≤ 70 then .Bloodied
  else .Fresh

/-- C3 counterexample: the claim says every `p ≤ 10` yields `Dying`, but the
`0..=10` match arm excludes negative percentages, which fall to the catch-all
`Fresh` arm: `from_health_percent (-1) = Fresh`, not `Dying`. -/
theorem c3_negative_percent_counterexample :
    CombatMomentum.from_health_percent (-1) ≠ CombatMomentum.Dying := by
  decide

/-- C3 amended: momentum is `Dying` for `0 ≤ p ≤ 10`, `Desperate` for
`11 ≤ p ≤ 30`, `Bloodied` for `31 ≤ p ≤ 70`, and `Fresh` both for `p > 70`
and for negative `p` (which miss every bounded match arm). -/
theorem c3_momentum_buckets (p : ℤ) :
    (0 ≤ p → p ≤ 10 → CombatMomentum.from_health_percent p = .Dying) ∧
      (11 ≤ p → p ≤ 30 → CombatMomentum.from_health_percent p = .Desperate) ∧
      (31 ≤ p → p ≤ 70 → CombatMomentum.from_health_percent p = .Bloodied) ∧
      (70 < p → CombatMomentum.from_health_percent p = .Fresh) ∧
      (p < 0 → CombatMomentum.from_health_percent p = .Fresh) := by
  unfold CombatMomentum.from_health_percent
  refine ⟨?_, ?_, ?_, ?_, ?_⟩ <;> intros <;> split_ifs <;> first | rfl | omega

/-- Witness for `c3_momentum_buckets`: each bucket evaluated at one concrete
percentage. -/
theorem c3_momentum_buckets_witness :
    CombatMomentum.from_health_percent 5 = .Dying ∧
      CombatMomentum.from_health_percent 20 = .Desperate ∧
      CombatMomentum.from_health_percent 50 = .Bloodied ∧
      CombatMomentum.from_health_percent 90 = .Fresh ∧
      CombatMomentum.from_health_percent (-7) = .Fresh :=
  ⟨(c3_momentum_buckets 5).1 (by decide) (by decide),
    (c3_momentum_buckets 20).2.1 (by decide) (by decide),
    (c3_momentum_buckets 50).2.2.1 (by decide) (by decide),
    (c3_momentum_buckets 90).2.2.2.1 (by decide),
    (c3_momentum_buckets (-7)).2.2.2.2 (by decide)⟩

/-! ## Enemy visual state (`src/game/enemy_visuals.rs`) -/

/-- Embeds `EnemyPosture` enum. -/
inductive EnemyPosture where
  | Confident
  | Wary
  | Staggered
  | Wounded
  | Dying
deriving DecidableEq, Repr

/-- Embeds `EnemyPosture::from_health_pct` guard chain (`> 0.75`, `> 0.50`, `> 0.25`,
`> 0.10`, catch-all). -/
def EnemyPosture.from_health_pct (pct : ℚ) : EnemyPosture :=
  if pct > 3/4 then .Confident
  else if pct > 1/2 then .Wary
  else if pct > 1/4 then .Staggered
  else if pct > 1/10 then .Wounded
  else .Dying

/-- Embeds `WoundSeverity` enum, in declaration order (its Rust `as u8`
discriminants are 0,1,2,3 in this order). -/
inductive WoundSeverity where
  | Scratch
  | Cut
  | Gash
  | Critical
deriving DecidableEq, Repr

/-- Embeds `WoundSeverity::from_damage_pct` guard chain. -/
def WoundSeverity.from_damage_pct (pct : ℚ) : WoundSeverity :=
  if pct > 1/4 then .Critical
  else if pct > 3/20 then .Gash
  else if pct > 2/25 then .Cut
  else .Scratch

/-- Embeds `WoundSeverity::char`. -/
def WoundSeverity.char : WoundSeverity → Char
  | .Critical => '╳'
  | .Gash => '/'
  | .Cut => '─'
  | .Scratch => '·'

/-- Embeds `WoundSeverity::value`. -/
def WoundSeverity.value : WoundSeverity → Nat
  | .Critical => 4
  | .Gash => 3
  | .Cut => 2
  | .Scratch => 1

/-- The Rust `as u8` discriminant of `WoundSeverity` (declaration order). -/
def WoundSeverity.discr : WoundSeverity → Nat
  | .Scratch => 0
  | .Cut => 1
  | .Gash => 2
  | .Critical => 3

/-- Embeds `WoundMarker`. -/
structure WoundMarker where
  position : Nat × Nat
  severity : WoundSeverity
  char_override : Char
deriving DecidableEq, Repr

/-- Embeds `DamageParticle`. -/
structure DamageParticle where
  position : Nat × Nat
  char : Char
deriving DecidableEq, Repr

/-- Embeds `HitLocation`. -/
inductive HitLocation where
  | Head
  | Torso
  | LeftArm
  | RightArm
  | Legs
  | Center
  | Random
deriving DecidableEq, Repr

/-- Embeds `DamageOverlays`; `total_severity` is a `u32` whose additions are small
and checked, modelled as exact `Nat` addition. -/
structure DamageOverlays where
  wounds : List WoundMarker
  particles : List DamageParticle
  total_severity : Nat
deriving DecidableEq, Repr

/-- Embeds `DamageOverlays::default`. -/
def DamageOverlays.default : DamageOverlays :=
  { wounds := [], particles := [], total_severity := 0 }

/-- Embeds `EnemyVisualState`. -/
structure EnemyVisualState where
  base_art : List String
  damage_overlays : DamageOverlays
  current_frame : Nat
  posture : EnemyPosture
  cached_render : Option (List String)
deriving DecidableEq, Repr

/-- Embeds `EnemyVisualState::new`. -/
def EnemyVisualState.new (base_art : List String) : EnemyVisualState :=
  { base_art := base_art
    damage_overlays := DamageOverlays.default
    current_frame := 0
    posture := .Confident
    cached_render := none }

/-- The posture bucket of `EnemyVisualState::update_posture`
(`0..=2`, `3..=5`, `6..=8`, `9..=12`, catch-all on a `u32`). -/
def postureOfSeverity (s : Nat) : EnemyPosture :=
  if s ≤ 2 then .Confident
  else if s ≤ 5 then .Wary
  else if s ≤ 8 then .Staggered
  else if s ≤ 12 then .Wounded
  else .Dying

/-- Embeds `EnemyVisualState::update_posture`. -/
def EnemyVisualState.update_posture (st : EnemyVisualState) : EnemyVisualState :=
  { st with posture := postureOfSeverity st.damage_overlays.total_severity }

/-- RNG oracle for one `apply_damage` call: the `gen_range` draws for a
`Random` hit position, the particle-count draw, and per-particle draws
(row offset, column offset, glyph index). -/
structure DamageRng where
  posRow : Nat
  posCol : Nat
  countD : Nat
  draws : Nat → Nat × Nat × Nat

/-- Embeds `EnemyVisualState::get_hit_position`; the two `gen_range(0..n)` results
for `Random` are the oracle values reduced into range. -/
def EnemyVisualState.get_hit_position (st : EnemyVisualState)
    (location : HitLocation) (rng : DamageRng) : Nat × Nat :=
  let height := st.base_art.length
  let width := (st.base_art.head?.map String.utf8ByteSize).getD 5
  match location with
  | .Head => (min 0 (height - 1), width / 2)
  | .Torso => (height / 2, width / 2)
  | .LeftArm => (height / 2, width / 4)
  | .RightArm => (height / 2, 3 * width / 4)
  | .Legs => (min (height - 1) (height - 1), width / 2)
  | .Center => (height / 2, width / 2)
  | .Random => (rng.posRow % height, rng.posCol % width)

/-- The blood glyph pool of `add_blood_particles`. -/
def bloodChars : List Char := ['·', ':', '.', ',', '•']

/-- Embeds `EnemyVisualState::add_blood_particles`: `gen_range(2..=4)` particles,
each at offsets `-1..=1` rows and `-2..=2` columns from the wound, clamped to
non-negative indices, with a glyph chosen from `bloodChars`. -/
def EnemyVisualState.add_blood_particles (st : EnemyVisualState)
    (near : Nat × Nat) (rng : DamageRng) : EnemyVisualState :=
  let count := 2 + rng.countD % 3
  let newParticles := (List.range count).map (fun i =>
    let d := rng.draws i
    let offset_row : ℤ := (d.1 % 3 : ℤ) - 1
    let offset_col : ℤ := (d.2.1 % 5 : ℤ) - 2
    let new_row := (max ((near.1 : ℤ) + offset_row) 0).toNat
    let new_col := (max ((near.2 : ℤ) + offset_col) 0).toNat
    ({ position := (new_row, new_col),
       char := bloodChars.getD (d.2.2 % 5) '·' } : DamageParticle))
  { st with damage_overlays :=
      { st.damage_overlays with
        particles := st.damage_overlays.particles ++ newParticles } }

/-- Embeds `EnemyVisualState::apply_damage`. -/
def EnemyVisualState.apply_damage (st : EnemyVisualState) (damage_pct : ℚ)
    (location : HitLocation) (rng : DamageRng) : EnemyVisualState :=
  let severity := WoundSeverity.from_damage_pct damage_pct
  let pos := st.get_hit_position location rng
  let st1 := { st with damage_overlays :=
      { st.damage_overlays with
        wounds := st.damage_overlays.wounds ++
          [({ position := pos, severity := severity,
              char_override := severity.char } : WoundMarker)]
        total_severity := st.damage_overlays.total_severity + severity.value } }
  let st2 :=
    if severity.discr ≥ WoundSeverity.Cut.discr then
      st1.add_blood_particles pos rng
    else st1
  let st3 := st2.update_posture
  { st3 with cached_render := none }

/-- Embeds `EnemyVisualState::reset`. -/
def EnemyVisualState.reset (st : EnemyVisualState) : EnemyVisualState :=
  { st with
    damage_overlays := DamageOverlays.default
    posture := .Confident
    cached_render := none }

/-- Embeds `EnemyVisualState::update_from_health`. -/
def EnemyVisualState.update_from_health (st : EnemyVisualState)
    (health_pct : ℚ) : EnemyVisualState :=
  let new_posture := EnemyPosture.from_health_pct health_pct
  if new_posture ≠ st.posture then
    { st with posture := new_posture, cached_render := none }
  else st

/-- Rank of a posture along the `Confident < Wary < Staggered < Wounded <
Dying` degradation order. -/
def postureRank : EnemyPosture → Nat
  | .Confident => 0
  | .Wary => 1
  | .Staggered => 2
  | .Wounded => 3
  | .Dying => 4

/-- The posture bucket function is monotone in total severity. -/
theorem postureOfSeverity_mono {s t : Nat} (h : s ≤ t) :
    postureRank (postureOfSeverity s) ≤ postureRank (postureOfSeverity t) := by
  unfold postureOfSeverity
  split_ifs <;> simp_all [postureRank] <;> omega

/-- Lemma: `apply_damage` adds exactly the wound's severity value to
`total_severity` (blood particles and the cache reset leave it alone). -/
theorem apply_damage_total_severity (st : EnemyVisualState) (p : ℚ)
    (l : HitLocation) (rng : DamageRng) :
    (st.apply_damage p l rng).damage_overlays.total_severity =
      st.damage_overlays.total_severity + (WoundSeverity.from_damage_pct p).value := by
  simp only [EnemyVisualState.apply_damage]
  split <;> rfl

/-- After `apply_damage` the posture is the bucket of the updated total
severity. -/
theorem apply_damage_posture (st : EnemyVisualState) (p : ℚ)
    (l : HitLocation) (rng : DamageRng) :
    (st.apply_damage p l rng).posture =
      postureOfSeverity
        (st.damage_overlays.total_severity + (WoundSeverity.from_damage_pct p).value) := by
  simp only [EnemyVisualState.apply_damage]
  split <;> rfl

/-- Wound/posture consistency: the posture equals the bucket of the current
total severity. `new` establishes it and `apply_damage` maintains it. -/
def woundConsistent (st : EnemyVisualState) : Prop :=
  st.posture = postureOfSeverity st.damage_overlays.total_severity

/-- One `apply_damage` call, with its per-call RNG oracle. -/
structure DamageEvent where
  damage_pct : ℚ
  location : HitLocation
  rng : DamageRng

/-- Fold a sequence of `apply_damage` calls over a visual state. -/
def EnemyVisualState.applyDamageSeq (st : EnemyVisualState)
    (es : List DamageEvent) : EnemyVisualState :=
  es.foldl (fun s e => s.apply_damage e.damage_pct e.location e.rng) st

/-- A single `apply_damage` call never lowers the posture rank of a
wound-consistent state, and keeps it wound-consistent. -/
theorem apply_damage_rank_step (st : EnemyVisualState) (h : woundConsistent st)
    (e : DamageEvent) :
    postureRank st.posture ≤
        postureRank (st.apply_damage e.damage_pct e.location e.rng).posture ∧
      woundConsistent (st.apply_damage e.damage_pct e.location e.rng) := by
  constructor
  · rw [h, apply_damage_posture]
    exact postureOfSeverity_mono (Nat.le_add_right _ _)
  · unfold woundConsistent
    rw [apply_damage_posture, apply_damage_total_severity]

/-- Wound consistency is preserved by any sequence of `apply_damage` calls. -/
theorem applyDamageSeq_consistent (es : List DamageEvent) :
    ∀ st : EnemyVisualState, woundConsistent st →
      woundConsistent (st.applyDamageSeq es) := by
  induction es with
  | nil => exact fun st h => h
  | cons e es ih =>
      intro st h
      exact ih _ (apply_damage_rank_step st h e).2

/-- C4: starting from any wound-consistent state (as produced by `new()` or
`reset()`), after any sequence of `apply_damage` calls, the next
`apply_damage` call never moves the posture back toward `Confident`: the
posture rank after the call is at least the rank before it. -/
theorem c4_posture_nondecreasing (st : EnemyVisualState)
    (h : woundConsistent st) (es : List DamageEvent) (e : DamageEvent) :
    postureRank (st.applyDamageSeq es).posture ≤
      postureRank
        ((st.applyDamageSeq es).apply_damage e.damage_pct e.location e.rng).posture :=
  (apply_damage_rank_step _ (applyDamageSeq_consistent es st h) e).1

/-- Fixed RNG oracle used by the concrete C4 witness. -/
def rngZero : DamageRng :=
  { posRow := 0, posCol := 0, countD := 0, draws := fun _ => (0, 0, 0) }

/-- Concrete damage event used by the C4 witness. -/
def torsoHit : DamageEvent :=
  { damage_pct := 3/10, location := .Torso, rng := rngZero }

/-- Witness for `c4_posture_nondecreasing`: a fresh three-row visualizer, one
prior hit, then one more hit. -/
theorem c4_posture_nondecreasing_witness :
    woundConsistent (EnemyVisualState.new ["  O  ", " /|\\ ", " / \\ "]) ∧
      postureRank
          ((EnemyVisualState.new ["  O  ", " /|\\ ", " / \\ "]).applyDamageSeq
            [torsoHit]).posture ≤
        postureRank
          (((EnemyVisualState.new ["  O  ", " /|\\ ", " / \\ "]).applyDamageSeq
              [torsoHit]).apply_damage torsoHit.damage_pct torsoHit.location
            torsoHit.rng).posture :=
  ⟨by unfold woundConsistent; rfl,
    c4_posture_nondecreasing _ (by unfold woundConsistent; rfl) [torsoHit] torsoHit⟩

/-- C10: `update_from_health` leaves the damage overlays (wounds, particles,
total severity), the base art and the animation frame unchanged; the posture
afterwards is exactly the health bucket; and the cached render is dropped
exactly when the posture actually changes and kept otherwise. -/
theorem c10_update_from_health (st : EnemyVisualState) (pct : ℚ) :
    (st.update_from_health pct).damage_overlays = st.damage_overlays ∧
      (st.update_from_health pct).base_art = st.base_art ∧
      (st.update_from_health pct).current_frame = st.current_frame ∧
      (st.update_from_health pct).posture = EnemyPosture.from_health_pct pct ∧
      (st.update_from_health pct).cached_render =
        (if EnemyPosture.from_health_pct pct = st.posture then st.cached_render
         else none) := by
  unfold EnemyVisualState.update_from_health
  by_cases h : EnemyPosture.from_health_pct pct = st.posture
  · simp [h]
  · simp [h]

/-! ## Typing impact (`src/game/typing_impact.rs`) -/

/-- One recorded keystroke (`Keystroke`); the `Instant` timestamp is
externalized, only the derived `interval_ms` the source consumes is kept. -/
structure Keystroke where
  char : Char
  correct : Bool
  interval_ms : Nat
deriving DecidableEq, Repr

/-- Embeds `AttackSequence`; `started_at` is externalized into the explicit elapsed
time passed to `complete_word`. -/
structure AttackSequence where
  word : String
  typed : String
  keystrokes : List Keystroke
deriving DecidableEq, Repr

/-- Embeds `AttackSequence::default`. -/
def AttackSequence.default : AttackSequence :=
  { word := "", typed := "", keystrokes := [] }

/-- Embeds `AttackType`. -/
inductive AttackType where
  | Deliberate
  | Flurry
  | Precision
  | Frantic
  | Standard
deriving DecidableEq, Repr

/-- Embeds `AttackType::damage_multiplier`. -/
def AttackType.damage_multiplier : AttackType → ℚ
  | .Precision => 3/2
  | .Flurry => 13/10
  | .Deliberate => 6/5
  | .Frantic => 9/10
  | .Standard => 1

/-- Embeds `AttackType::name`. -/
def AttackType.name : AttackType → String
  | .Precision => "PRECISION STRIKE"
  | .Flurry => "FLURRY"
  | .Deliberate => "Heavy Blow"
  | .Frantic => "Wild Swing"
  | .Standard => "Attack"

/-- Embeds `AttackType::icon`. -/
def AttackType.icon : AttackType → String
  | .Precision => "⚔"
  | .Flurry => "⚡"
  | .Deliberate => "🗡"
  | .Frantic => "💥"
  | .Standard => "→"

/-- Embeds `KeystrokeResult`. -/
structure KeystrokeResult where
  damage_this_stroke : ℚ
  visual_intensity : ℚ
  sound_pitch : ℚ
  screen_shake : ℚ
  rhythm_bonus : ℚ
  correct : Bool
deriving DecidableEq, Repr

/-- Embeds `WordCompletionResult`. -/
structure WordCompletionResult where
  damage : ℤ
  attack_type : AttackType
  wpm : ℚ
  accuracy : ℚ
  perfect : Bool
  message : String
deriving DecidableEq, Repr

/-- Embeds `TypingImpact` state. -/
structure TypingImpact where
  current_attack : AttackSequence
  pending_damage : ℚ
  quality_multiplier : ℚ
  impact_intensity : ℚ
  attack_type : AttackType
  last_correct : Bool
deriving DecidableEq, Repr

/-- Embeds `TypingImpact::new`. -/
def TypingImpact.new : TypingImpact :=
  { current_attack := AttackSequence.default
    pending_damage := 0
    quality_multiplier := 1
    impact_intensity := 0
    attack_type := .Standard
    last_correct := true }

/-- Embeds `TypingImpact::start_word`. -/
def TypingImpact.start_word (st : TypingImpact) (word : String) : TypingImpact :=
  { st with
    current_attack := { word := word, typed := "", keystrokes := [] }
    pending_damage := 0
    impact_intensity := 0
    attack_type := .Standard }

/-- Embeds `TypingImpact::calculate_rhythm_bonus`: the last 3 recorded keystrokes
(the current one included, since the source pushes before computing impact)
are filtered down to their non-zero intervals; with fewer than 2 samples or a
zero current interval the bonus is neutral, otherwise it is keyed off the
absolute deviation from their integer-division mean. -/
def TypingImpact.calculate_rhythm_bonus (st : TypingImpact)
    (current_interval : Nat) : ℚ :=
  let recent : List Nat :=
    ((st.current_attack.keystrokes.reverse.take 3).filter
      (fun k => k.interval_ms > 0)).map (fun k => k.interval_ms)
  if recent.length < 2 ∨ current_interval = 0 then 1
  else
    let avg : Nat := recent.sum / recent.length
    let variance : Nat := ((current_interval : ℤ) - (avg : ℤ)).natAbs
    if variance < 30 then 3/2
    else if variance < 60 then 5/4
    else if variance < 100 then 11/10
    else 1

/-- Embeds `TypingImpact::calculate_keystroke_impact`. -/
def TypingImpact.calculate_keystroke_impact (st : TypingImpact)
    (correct : Bool) (interval_ms : Nat) : KeystrokeResult :=
  if !correct then
    { damage_this_stroke := 0
      visual_intensity := 4/5
      sound_pitch := 1/2
      screen_shake := 1/10
      rhythm_bonus := 0
      correct := false }
  else
    let base : ℚ := 3/2
    let speed_mult : ℚ :=
      if interval_ms > 0 then max (min (200 / (interval_ms : ℚ)) 2) (1/2)
      else 1
    let rhythm_mult := st.calculate_rhythm_bonus interval_ms
    let damage := base * speed_mult * rhythm_mult
    { damage_this_stroke := damage
      visual_intensity := min (speed_mult * (1/2)) 1
      sound_pitch := 4/5 + speed_mult * (1/5)
      screen_shake := damage * (3/100)
      rhythm_bonus := rhythm_mult - 1
      correct := true }

/-- Embeds `TypingImpact::on_keystroke` (the interval the source derives from
`Instant` timestamps is an explicit argument): records the keystroke, then
computes the impact on the updated state and accumulates pending damage. -/
def TypingImpact.on_keystroke (st : TypingImpact) (ch : Char) (correct : Bool)
    (interval : Nat) : TypingImpact × KeystrokeResult :=
  let st1 :=
    { st with
      current_attack :=
        { st.current_attack with
          keystrokes := st.current_attack.keystrokes ++
            [({ char := ch, correct := correct, interval_ms := interval } : Keystroke)]
          typed := st.current_attack.typed.push ch }
      last_correct := correct }
  let impact := st1.calculate_keystroke_impact correct interval
  ({ st1 with
      pending_damage := st1.pending_damage + impact.damage_this_stroke
      impact_intensity := impact.visual_intensity },
    impact)

/-- Embeds `TypingImpact::determine_attack_type` (first-match precedence). -/
def determine_attack_type (wpm accuracy : ℚ) : AttackType :=
  if accuracy ≥ 99/100 ∧ wpm ≥ 80 then .Precision
  else if accuracy ≥ 95/100 ∧ wpm ≥ 100 then .Flurry
  else if wpm < 40 ∧ accuracy ≥ 95/100 then .Deliberate
  else if wpm ≥ 70 ∧ accuracy < 85/100 then .Frantic
  else .Standard

/-- Embeds `f32::round`: nearest integer, ties away from zero. -/
def rustRound (x : ℚ) : ℤ :=
  if 0 ≤ x then ⌊x + 1/2⌋ else -⌊-x + 1/2⌋

/-- Embeds `TypingImpact::generate_attack_message`. -/
def generate_attack_message (atype : AttackType) (damage : ℤ)
    (perfect : Bool) : String :=
  if perfect then
    atype.icon ++ " PERFECT " ++ atype.name ++ "! " ++ toString damage ++ " damage!"
  else
    match atype with
    | .Precision => atype.icon ++ " " ++ atype.name ++ "! " ++ toString damage ++ " damage!"
    | .Flurry => atype.icon ++ " " ++ atype.name ++ "! " ++ toString damage ++ " damage!"
    | .Deliberate => atype.icon ++ " " ++ atype.name ++ ". " ++ toString damage ++ " damage."
    | .Frantic => atype.icon ++ " " ++ atype.name ++ "! " ++ toString damage ++ " damage."
    | .Standard => "You deal " ++ toString damage ++ " damage."

/-- Embeds `TypingImpact::complete_word` (elapsed wall-clock seconds are an explicit
argument). `char_count` is the byte length of `typed`, as in the source. -/
def TypingImpact.complete_word (st : TypingImpact) (base_damage : ℤ)
    (elapsed_secs : ℚ) : TypingImpact × WordCompletionResult :=
  let char_count := st.current_attack.typed.utf8ByteSize
  let correct_count := (st.current_attack.keystrokes.filter (fun k => k.correct)).length
  let accuracy : ℚ :=
    if char_count > 0 then (correct_count : ℚ) / (char_count : ℚ) else 1
  let wpm : ℚ :=
    if elapsed_secs > 0 then ((char_count : ℚ) / 5) / (elapsed_secs / 60) else 0
  let atype := determine_attack_type wpm accuracy
  let type_mult := atype.damage_multiplier
  let accuracy_mult : ℚ := 1/2 + accuracy * (1/2)
  let final_damage :=
    rustRound (((base_damage : ℚ) + st.pending_damage) * type_mult * accuracy_mult)
  let perfect := accuracy ≥ 99/100
  ({ st with attack_type := atype },
    { damage := max final_damage 1
      attack_type := atype
      wpm := wpm
      accuracy := accuracy
      perfect := perfect
      message := generate_attack_message atype final_damage perfect })

/-- The rhythm multiplier is always one of 1, 1.1, 1.25, 1.5, hence
positive. -/
theorem calculate_rhythm_bonus_pos (st : TypingImpact) (i : Nat) :
    0 < st.calculate_rhythm_bonus i := by
  simp only [TypingImpact.calculate_rhythm_bonus]
  split_ifs <;> norm_num

/-- A correct keystroke always contributes strictly positive damage:
`base = 1.5`, the speed multiplier is clamped to at least `0.5` (or neutral
`1`), and the rhythm multiplier is positive. -/
theorem calculate_keystroke_impact_pos (st : TypingImpact) (interval : Nat) :
    0 < (st.calculate_keystroke_impact true interval).damage_this_stroke := by
  have hr := calculate_rhythm_bonus_pos st interval
  have hs : 0 < (if interval > 0 then max (min (200 / (interval : ℚ)) 2) (1/2)
      else 1) := by
    split_ifs
    · exact lt_of_lt_of_le (by norm_num) (le_max_right _ _)
    · norm_num
  show (0:ℚ) < 3/2 *
      (if interval > 0 then max (min (200 / (interval : ℚ)) 2) (1/2) else 1) *
      st.calculate_rhythm_bonus interval
  exact mul_pos (mul_pos (by norm_num) hs) hr

/-- C6: processing an incorrect keystroke reports exactly zero damage for
that stroke; processing a correct one reports strictly positive damage. -/
theorem c6_keystroke_damage_sign (st : TypingImpact) (ch : Char)
    (interval : Nat) :
    (st.on_keystroke ch false interval).2.damage_this_stroke = 0 ∧
      0 < (st.on_keystroke ch true interval).2.damage_this_stroke := by
  refine ⟨rfl, ?_⟩
  exact calculate_keystroke_impact_pos _ interval

/-- C5: the final damage of `complete_word` is at least 1 for every analyzer
state and every non-negative base damage (the source floors the rounded
product with `.max(1)`). -/
theorem c5_complete_word_damage_min (st : TypingImpact) (base : ℤ)
    (elapsed : ℚ) (_hbase : 0 ≤ base) :
    1 ≤ (st.complete_word base elapsed).2.damage :=
  le_max_right _ _

/-- Witness for `c5_complete_word_damage_min` at the fresh analyzer. -/
theorem c5_complete_word_damage_min_witness :
    (0:ℤ) ≤ 5 ∧ 1 ≤ (TypingImpact.new.complete_word 5 (3/2)).2.damage :=
  ⟨by decide, c5_complete_word_damage_min TypingImpact.new 5 (3/2) (by decide)⟩

/-- State after `start_word("test")`. -/
def testWord0 : TypingImpact := TypingImpact.new.start_word "test"

/-- State after the first keystroke of "test" (interval 0). -/
def testWord1 : TypingImpact := (testWord0.on_keystroke 't' true 0).1

/-- State after the second keystroke (interval 150). -/
def testWord2 : TypingImpact := (testWord1.on_keystroke 'e' true 150).1

/-- State after the third keystroke (interval 150). -/
def testWord3 : TypingImpact := (testWord2.on_keystroke 's' true 150).1

/-- State after the fourth keystroke (interval 150). -/
def testWord4 : TypingImpact := (testWord3.on_keystroke 't' true 150).1

/-- C7: typing "test" correctly with intervals [0,150,150,150] ms, the rhythm
multiplier applied to keystrokes 3 and 4 is 1.5 (the source computes it on
the state that already contains the current keystroke, which has the same
keystroke list as `testWord3` resp. `testWord4`), equivalently the reported
`rhythm_bonus` of those two strokes is 0.5. -/
theorem c7_test_word_rhythm :
    testWord3.calculate_rhythm_bonus 150 = 3/2 ∧
      testWord4.calculate_rhythm_bonus 150 = 3/2 ∧
      (testWord2.on_keystroke 's' true 150).2.rhythm_bonus = 1/2 ∧
      (testWord3.on_keystroke 't' true 150).2.rhythm_bonus = 1/2 := by
  refine ⟨rfl, rfl, ?_, ?_⟩ <;>
    · show (3/2 : ℚ) - 1 = 1/2
      norm_num

/-- C9: `complete_word` normalizes degenerate inputs: with an empty typed
buffer the reported accuracy is 1 and the wpm is 0, and with zero elapsed
time the wpm is 0; the embedding is a total function, so no division by zero
or error can occur. -/
theorem c9_degenerate_inputs (st : TypingImpact) (base : ℤ) (elapsed : ℚ) :
    (st.current_attack.typed = "" →
        (st.complete_word base elapsed).2.accuracy = 1 ∧
          (st.complete_word base elapsed).2.wpm = 0) ∧
      (elapsed = 0 → (st.complete_word base elapsed).2.wpm = 0) := by
  refine ⟨fun h => ?_, fun h => ?_⟩
  · have hc : st.current_attack.typed.utf8ByteSize = 0 := by rw [h]; rfl
    simp only [TypingImpact.complete_word, hc]
    constructor
    · norm_num
    · split_ifs <;> simp
  · subst h
    simp only [TypingImpact.complete_word]
    norm_num

/-- Witness for `c9_degenerate_inputs` at the fresh analyzer (empty typed
buffer; elapsed times 7 and 0). -/
theorem c9_degenerate_inputs_witness :
    TypingImpact.new.current_attack.typed = "" ∧
      ((TypingImpact.new.complete_word 5 7).2.accuracy = 1 ∧
        (TypingImpact.new.complete_word 5 7).2.wpm = 0) ∧
      (TypingImpact.new.complete_word 5 0).2.wpm = 0 :=
  ⟨rfl, (c9_degenerate_inputs TypingImpact.new 5 7).1 rfl,
    (c9_degenerate_inputs TypingImpact.new 5 0).2 rfl⟩

end KW
